import Mathlib

/-!
Shallow embedding of the proactive survey agent's decision engine, sentiment
classifier, question generator, cooldown gate and long-term-memory store
(`shared/ai_service.py`, `shared/utils.py`,
`agents/workers/proactive_survey_agent.py`), with theorems checking the
specification's claims about them.

Modelling conventions:
- Python `None` and JSON `null` are both modelled by `Json.null`.
- Randomness (`random.shuffle` / `random.sample`) is modelled by an explicit
  permutation-producing function `perm`, quantified over all functions whose
  output is a permutation of the input.
- External AI calls are modelled by an environment recording the outcome of
  each call (raw response text, or an error for an exception), so theorems
  quantify over every possible AI behaviour.
- The file system backing `LTMFileStorage` is an association list from file
  path to the JSON document stored there.
-/

/-- JSON-like values: the JSON-serializable Python values stored by the
file-backed long-term memory. `Json.null` models Python `None`. -/
inductive Json where
  | null : Json
  | bool (b : Bool) : Json
  | num (n : Int) : Json
  | str (s : String) : Json
  | arr (elems : List Json) : Json
  | obj (fields : List (String × Json)) : Json

/-- `charsPrefix needle l` is true when `needle` is a prefix of `l`. -/
def charsPrefix : List Char → List Char → Bool
  | [], _ => true
  | _ :: _, [] => false
  | a :: as, b :: bs => a == b && charsPrefix as bs

/-- `charsContains needle l` is true when `needle` occurs contiguously in `l`. -/
def charsContains (needle : List Char) : List Char → Bool
  | [] => charsPrefix needle []
  | c :: rest => charsPrefix needle (c :: rest) || charsContains needle rest

/-- Python's substring test `sub in s`. -/
def strContains (s sub : String) : Bool :=
  charsContains sub.data s.data

/-- Python's `str.lower()` (ASCII case folding, as used by the code). -/
def pyLower (s : String) : String :=
  ⟨s.data.map Char.toLower⟩

/-- Result of sentiment classification: the dictionary returned by
`AIService.analyze_sentiment_ai` / `AIService._fallback_sentiment`. -/
structure SentimentResult where
  sentiment : String
  confidence : Nat
  reason : String
deriving Repr, DecidableEq

/-- The negative keyword list of `AIService._fallback_sentiment`. -/
def negative_keywords : List String :=
  ["negative", "complaint", "issue", "problem", "dissatisfied",
   "unhappy", "disappointed", "frustrated", "broken", "defect",
   "unwell", "sick", "ill", "bad", "terrible", "awful", "sad"]

/-- The positive keyword list of `AIService._fallback_sentiment`. -/
def positive_keywords : List String :=
  ["positive", "happy", "satisfied", "great", "excellent",
   "fantastic", "amazing", "love", "awesome", "delighted"]

/-- `AIService._fallback_sentiment`: keyword-based sentiment analysis.
`sum(1 for kw in kws if kw in text_lower)` is modelled by summing an
indicator over the keyword list. -/
def fallback_sentiment (text : String) : SentimentResult :=
  let text_lower := pyLower text
  let negative_count :=
    (negative_keywords.map (fun kw => if strContains text_lower kw then 1 else 0)).sum
  let positive_count :=
    (positive_keywords.map (fun kw => if strContains text_lower kw then 1 else 0)).sum
  if negative_count > positive_count then
    { sentiment := "negative",
      confidence := min (60 + negative_count * 10) 95,
      reason := "Keyword-based analysis (fallback mode)" }
  else if positive_count > negative_count then
    { sentiment := "positive",
      confidence := min (60 + positive_count * 10) 95,
      reason := "Keyword-based analysis (fallback mode)" }
  else
    { sentiment := "neutral",
      confidence := 50,
      reason := "Keyword-based analysis (fallback mode)" }

/-- The per-survey-type template pools of `AIService._fallback_questions`
(`questions_map` in the source, with the f-string substitution of
`last_purchase` applied), together with the generic default pool used for
unknown survey types. -/
def questions_map (last_purchase : String) (survey_type : String) : List String :=
  if survey_type = "Product Experience" then
    ["How satisfied are you with your " ++ last_purchase ++ "?",
     "Would you recommend this product to others?",
     "What could we improve about this product?",
     "What aspects of your " ++ last_purchase ++ " exceeded expectations?",
     "Did the product arrive in the condition you expected?",
     "Is there any feature you wish this product had?"]
  else if survey_type = "Support Quality" then
    ["How would you rate your support experience?",
     "Was your issue resolved effectively?",
     "What could we do to improve our support?",
     "Did our support team follow up with you in a timely manner?",
     "Is there something that would have made the support process easier?"]
  else if survey_type = "General Feedback" then
    ["What do you enjoy most about our service?",
     "Would you recommend us to friends?",
     "Any features you'd like to see?",
     "How can we make your overall experience even better?",
     "Is there a feature you rarely use that we could improve?"]
  else if survey_type = "Engagement Check" then
    ["How has your experience been with us?",
     "Is there anything we can help you with?",
     "What would make your experience better?",
     "Have you noticed any recent changes that you liked or disliked?",
     "What would encourage you to engage with us more often?"]
  else
    ["How satisfied are you overall?",
     "What can we improve?",
     "Any additional feedback?",
     "Is there anything preventing you from being fully satisfied?",
     "How likely are you to continue using our service?"]

/-- `AIService._fallback_questions`.  `context.get('last_purchase', 'product')`
is modelled by `context_last_purchase.getD "product"` (the key may be absent).
Both random branches are modelled through `perm`: `random.shuffle` followed by
the slice `templates[:num_questions]` is `(perm templates).take num_questions`,
and `random.sample(templates, k)` (k distinct elements drawn without
replacement, in random order) is equally `take k` of a random permutation of
the pool.  Theorems quantify over every `perm` that permutes its input. -/
def fallback_questions (perm : List String → List String)
    (survey_type : String) (context_last_purchase : Option String)
    (num_questions : Nat) : List String :=
  let last_purchase := context_last_purchase.getD "product"
  let templates := questions_map last_purchase survey_type
  if templates.length ≤ num_questions then
    (perm templates).take num_questions
  else
    (perm templates).take num_questions

/-- Remove leading JSON whitespace (as `json.loads` tolerates). -/
def skipSpaces : List Char → List Char
  | [] => []
  | c :: cs =>
    if c = ' ' ∨ c = '\n' ∨ c = '\t' ∨ c = '\r' then skipSpaces cs else c :: cs

/-- Read the body of a JSON string literal (no escape sequences), up to the
closing quote; returns the string and the remaining input. -/
def takeStringLit : List Char → Option (String × List Char)
  | [] => none
  | c :: cs =>
    if c = '"' then some ("", cs)
    else
      match takeStringLit cs with
      | some (s, rest) => some (⟨c :: s.data⟩, rest)
      | none => none

/-- Parse a comma-separated sequence of JSON string literals (fuelled
recursion); returns the strings and the remaining input. -/
def parseItems : Nat → List Char → Option (List String × List Char)
  | 0, _ => none
  | fuel + 1, cs =>
    match skipSpaces cs with
    | '"' :: rest =>
      match takeStringLit rest with
      | none => none
      | some (s, rest₂) =>
        match skipSpaces rest₂ with
        | ',' :: rest₃ =>
          match parseItems fuel rest₃ with
          | some (ss, r) => some (s :: ss, r)
          | none => none
        | other => some ([s], other)
    | _ => none

/-- Model of Python's `json.loads` restricted to the values relevant here:
JSON arrays of escape-free string literals.  Any other input is a parse
error (`json.loads` raising, caught by the caller's `except`). -/
def parseStringArray (s : String) : Except String (List String) :=
  match skipSpaces s.data with
  | '[' :: rest =>
    match skipSpaces rest with
    | ']' :: tail =>
      if (skipSpaces tail).isEmpty then .ok [] else .error "extra data"
    | other =>
      match parseItems (other.length + 1) other with
      | some (ss, r) =>
        match skipSpaces r with
        | ']' :: tail =>
          if (skipSpaces tail).isEmpty then .ok ss else .error "extra data"
        | _ => .error "expected closing bracket"
      | none => .error "malformed array"
  | _ => .error "expected array"

/-- Drop characters before the first opening square bracket (Python
`text[text.find(char48) :]` for a present bracket, the empty remainder
otherwise). -/
def dropUntilLbracket : List Char → List Char
  | [] => []
  | c :: cs => if c = '[' then c :: cs else dropUntilLbracket cs

/-- Keep characters up to and including the last closing square bracket
(Python `text[: text.rfind(char93) + 1]`). -/
def takeUntilLastRbracket (cs : List Char) : List Char :=
  ((cs.reverse.dropWhile (fun c => c ≠ ']')).reverse)

/-- The response-parsing step of `AIService.generate_survey_questions_ai` for
responses without markdown code fences: when the text contains an opening
square bracket, slice from the first such bracket to the last closing one and
`json.loads` the slice; otherwise `json.loads` the text directly.  (Responses
wrapped in code fences are outside this model; they only make additional
inputs parseable.) -/
def parse_questions_response (s : String) : Except String (List String) :=
  if charsContains ['['] s.data then
    parseStringArray ⟨dropUntilLbracket (takeUntilLastRbracket s.data)⟩
  else
    parseStringArray s

/-- Environment recording one run's interaction with the external AI model
and the random source:
- `ai_enabled`: `AIService.ai_enabled` (Gemini configured and initialized);
- `sentiment_response`: outcome of `model.generate_content` for the sentiment
  prompt (`.error` models a raised exception such as a network failure);
- `sentiment_parse`: outcome of stripping fences, `json.loads`, and the
  field accesses on the sentiment response (`.error` models any exception:
  non-JSON text, missing `sentiment`/`confidence` fields, wrong shape);
- `questions_response`: outcome of `model.generate_content` for the
  question-generation prompt;
- `perm`: the random permutation drawn by `random.shuffle`/`random.sample`.
Theorems quantify over every environment, hence over every AI behaviour. -/
structure AIEnv where
  ai_enabled : Bool
  sentiment_response : Except String String
  sentiment_parse : String → Except String SentimentResult
  questions_response : Except String String
  perm : List String → List String

/-- The try-block of `AIService.analyze_sentiment_ai`: call the model, then
parse its response; any exception surfaces as `.error`. -/
def ai_try_sentiment (env : AIEnv) : Except String SentimentResult :=
  env.sentiment_response.bind env.sentiment_parse

/-- `AIService.analyze_sentiment_ai`: fallback when AI is disabled, otherwise
the try-block with every exception caught and answered by the fallback. -/
def analyze_sentiment_ai (env : AIEnv) (text : String) : SentimentResult :=
  if env.ai_enabled = false then fallback_sentiment text
  else
    match ai_try_sentiment env with
    | .ok result => result
    | .error _ => fallback_sentiment text

/-- The try-block of `AIService.generate_survey_questions_ai`: call the model,
then parse its response as a JSON array of strings. -/
def ai_try_questions (env : AIEnv) : Except String (List String) :=
  env.questions_response.bind parse_questions_response

/-- `AIService.generate_survey_questions_ai`: fallback when AI is disabled,
otherwise the try-block with every exception caught and answered by the
fallback. -/
def generate_survey_questions_ai (env : AIEnv)
    (context_last_purchase : Option String) (survey_type : String)
    (num_questions : Nat) : List String :=
  if env.ai_enabled = false then
    fallback_questions env.perm survey_type context_last_purchase num_questions
  else
    match ai_try_questions env with
    | .ok questions => questions
    | .error _ =>
      fallback_questions env.perm survey_type context_last_purchase num_questions

/-- The file system backing `LTMFileStorage`: an association list from file
path to the JSON document stored in that file. -/
abbrev FileSystem := List (String × Json)

/-- First-match association-list lookup (a file system or dictionary read). -/
def alistLookup : List (String × Json) → String → Option Json
  | [], _ => none
  | (p, j) :: rest, q => if p = q then some j else alistLookup rest q

/-- Python truthiness of a JSON value (`if data:` in `LTMFileStorage.read`). -/
def jsonTruthy : Json → Bool
  | .null => false
  | .bool b => b
  | .num n => n != 0
  | .str s => s != ""
  | .arr elems => !elems.isEmpty
  | .obj fields => !fields.isEmpty

/-- Python `dict.get(k)`: `none` models both a missing key and the
`AttributeError` of calling `.get` on a non-dict (the caller catches it and
returns `None` either way). -/
def jsonGet : Json → String → Option Json
  | .obj fields, k => alistLookup fields k
  | _, _ => none

namespace LTMFileStorage

/-- `LTMFileStorage.write`: wrap the value as `{value, stored_at}` and save it
to the file `key + ".json"`, reporting success.  Overwriting a file is
modelled by replacing the entry at that path. -/
def write (fs : FileSystem) (now : String) (key : String) (value : Json) :
    Bool × FileSystem :=
  let data := Json.obj [("value", value), ("stored_at", Json.str now)]
  let path := key ++ ".json"
  (true, (path, data) :: fs.filter (fun e => e.1 != path))

/-- `LTMFileStorage.read`: load the file `key + ".json"`; a missing file or a
falsy document yields Python `None` (here `Json.null`), otherwise the
document's `value` field. -/
def read (fs : FileSystem) (key : String) : Json :=
  match alistLookup fs (key ++ ".json") with
  | none => Json.null
  | some data =>
    if jsonTruthy data then (jsonGet data "value").getD Json.null else Json.null

end LTMFileStorage

/-- `ProactiveSurveyAgent.write_to_ltm`: `False` without touching storage when
LTM initialization failed (`self.ltm is None`), otherwise delegate. -/
def write_to_ltm (ltm : Option FileSystem) (now key : String) (value : Json) :
    Bool × Option FileSystem :=
  match ltm with
  | none => (false, none)
  | some fs =>
    let result := LTMFileStorage.write fs now key value
    (result.1, some result.2)

/-- `ProactiveSurveyAgent.read_from_ltm`: Python `None` (here `Json.null`)
when LTM initialization failed, otherwise delegate. -/
def read_from_ltm (ltm : Option FileSystem) (key : String) : Json :=
  match ltm with
  | none => Json.null
  | some fs => LTMFileStorage.read fs key

/-- `MIN_DAYS_BETWEEN_SURVEYS`: the configured
`business_logic.survey_cooldown_days`, defaulting to 30 when absent. -/
def MIN_DAYS_BETWEEN_SURVEYS (cfg_survey_cooldown_days : Option Int) : Int :=
  cfg_survey_cooldown_days.getD 30

/-- `ProactiveSurveyAgent._should_send_survey`.  `parse_date s` models
`(datetime.now() - dateutil.parser.parse(s)).days`, the number of whole days
elapsed since the parsed date; `none` models `parser.parse` raising (the
`except` branch fails open). -/
def should_send_survey (parse_date : String → Option Int) (min_days : Int)
    (last_survey_date : Option String) : Bool :=
  match last_survey_date with
  | none => true
  | some s =>
    if s = "" then true
    else
      match parse_date s with
      | none => true
      | some days_since => min_days ≤ days_since

/-- The analysis request read from `request_data` in
`ProactiveSurveyAgent.analyze_request`: `recent_activity` and `last_purchase`
default to the empty string when absent (`dict.get(k, "")`), and
`last_survey_date` may be absent (`dict.get(k)`). -/
structure AnalysisRequest where
  user_id : String
  recent_activity : String
  last_purchase : String
  last_survey_date : Option String
deriving Repr, DecidableEq

/-- The response dictionary built by `ProactiveSurveyAgent._create_response`:
`survey_type`, `priority` and `questions` keys are present (`some`) exactly
when `survey_trigger` is true. -/
structure SurveyResponse where
  survey_trigger : Bool
  reason : String
  timestamp : String
  survey_type : Option String
  priority : Option String
  questions : Option (List String)
deriving Repr, DecidableEq

/-- `ProactiveSurveyAgent._create_response`.  The Python signature has
defaults `survey_type=""`, `priority="low"`, `reason=""`, `questions=None`;
call sites below pass them explicitly.  `questions.getD []` models
`questions or []`. -/
def create_response (now : String) (survey_trigger : Bool)
    (survey_type priority reason : String)
    (questions : Option (List String)) : SurveyResponse :=
  if survey_trigger then
    { survey_trigger := true, reason := reason, timestamp := now,
      survey_type := some survey_type, priority := some priority,
      questions := some (questions.getD []) }
  else
    { survey_trigger := false, reason := reason, timestamp := now,
      survey_type := none, priority := none, questions := none }

/-- `ProactiveSurveyAgent._make_decision`: the rule table, applied in priority
order with the first match winning. -/
def make_decision (env : AIEnv) (now : String)
    (sentiment : String) (sentiment_confidence : Nat)
    (recent_activity : String) (has_recent_purchase : Bool)
    (last_purchase : String) : SurveyResponse :=
  if sentiment = "negative" ∧ has_recent_purchase = true then
    let questions :=
      generate_survey_questions_ai env (some last_purchase) "Product Experience" 3
    create_response now true "Product Experience" "high"
      ("Negative sentiment detected after purchase (AI confidence: " ++
        toString sentiment_confidence ++ "%)")
      (some questions)
  else if sentiment = "negative" ∧ strContains (pyLower recent_activity) "support" = true then
    let questions :=
      generate_survey_questions_ai env (some last_purchase) "Support Quality" 3
    create_response now true "Support Quality" "high"
      ("Negative support experience detected (AI confidence: " ++
        toString sentiment_confidence ++ "%)")
      (some questions)
  else if sentiment = "negative" then
    let questions :=
      generate_survey_questions_ai env (some last_purchase) "Engagement Check" 3
    create_response now true "Engagement Check" "medium"
      ("Negative sentiment detected (AI confidence: " ++
        toString sentiment_confidence ++ "%)")
      (some questions)
  else
    create_response now false "" "low"
      ("No survey needed for " ++ sentiment ++ " sentiment (AI confidence: " ++
        toString sentiment_confidence ++ "%)")
      none

/-- Environment of one agent run: the AI environment, the date parser and
configured cooldown, Python's string `hash`, and the clock
(`shared.utils.get_timestamp`). -/
structure AgentEnv where
  ai : AIEnv
  parse_date : String → Option Int
  min_days : Int
  hash_fn : String → Nat
  now : String

/-- `ProactiveSurveyAgent._analyze_sentiment`: classify the text, store a
sentiment sample under `sentiment_{hash(text) % 10000}`, return the result. -/
def analyze_sentiment_step (env : AgentEnv) (ltm : Option FileSystem)
    (text : String) : SentimentResult × Option FileSystem :=
  let result := analyze_sentiment_ai env.ai text
  let sentiment_key := "sentiment_" ++ toString (env.hash_fn text % 10000)
  let record := Json.obj
    [("text", Json.str (text.take 100)),
     ("sentiment", Json.str result.sentiment),
     ("confidence", Json.num (result.confidence : Int)),
     ("timestamp", Json.str env.now)]
  let written := write_to_ltm ltm env.now sentiment_key record
  (result, written.2)

/-- `ProactiveSurveyAgent.analyze_request`: read any previous analysis (used
only for logging), apply the cooldown gate, classify sentiment, and apply the
decision rules. -/
def analyze_request (env : AgentEnv) (req : AnalysisRequest)
    (ltm : Option FileSystem) : SurveyResponse × Option FileSystem :=
  let _previous_analysis := read_from_ltm ltm ("last_analysis_" ++ req.user_id)
  if should_send_survey env.parse_date env.min_days req.last_survey_date = false then
    (create_response env.now false "" "low" "Survey sent too recently" none, ltm)
  else
    let step := analyze_sentiment_step env ltm req.recent_activity
    let has_recent_purchase := req.last_purchase != ""
    (make_decision env.ai env.now step.1.sentiment step.1.confidence
       req.recent_activity has_recent_purchase req.last_purchase, step.2)

/-- The response dictionary as stored into LTM (JSON encoding of
`SurveyResponse`): the conditional keys appear only when the survey
triggered. -/
def SurveyResponse.toJson (r : SurveyResponse) : Json :=
  Json.obj
    ([("survey_trigger", Json.bool r.survey_trigger),
      ("reason", Json.str r.reason),
      ("timestamp", Json.str r.timestamp)] ++
     (if r.survey_trigger then
        [("survey_type", Json.str (r.survey_type.getD "")),
         ("priority", Json.str (r.priority.getD "")),
         ("questions", Json.arr ((r.questions.getD []).map Json.str))]
      else []))

/-- `ProactiveSurveyAgent.process_task`: run the analysis, then, for a truthy
`user_id`, persist `{"timestamp": ..., "result": ...}` under
`last_analysis_{user_id}`. -/
def process_task (env : AgentEnv) (task : AnalysisRequest)
    (ltm : Option FileSystem) : SurveyResponse × Option FileSystem :=
  let analyzed := analyze_request env task ltm
  if task.user_id != "" then
    let record := Json.obj
      [("timestamp", Json.str env.now), ("result", analyzed.1.toJson)]
    let written :=
      write_to_ltm analyzed.2 env.now ("last_analysis_" ++ task.user_id) record
    (analyzed.1, written.2)
  else
    analyzed

/-- A concrete environment for a run in fallback mode (AI disabled, identity
permutation, no parseable dates), used to instantiate theorems. -/
def fallbackAIEnv : AIEnv :=
  { ai_enabled := false
    sentiment_response := .error "AI disabled"
    sentiment_parse := fun _ => .error "AI disabled"
    questions_response := .error "AI disabled"
    perm := id }

/-- A concrete agent environment in fallback mode. -/
def fallbackAgentEnv : AgentEnv :=
  { ai := fallbackAIEnv
    parse_date := fun _ => none
    min_days := 30
    hash_fn := fun _ => 0
    now := "2026-10-12T00:00:00" }

/-! ### Helper lemmas -/

/-- Python's `sum(1 for kw in kws if kw in text_lower)` counts the keywords
that occur in the text. -/
lemma sum_indicator_eq_countP (text_lower : String) (kws : List String) :
    (kws.map (fun kw => if strContains text_lower kw then 1 else 0)).sum =
      kws.countP (fun kw => strContains text_lower kw) := by
  induction kws with
  | nil => simp
  | cons k ks ih =>
    simp only [List.map_cons, List.sum_cons, List.countP_cons, ih]
    split_ifs <;> omega

/-- Closed form of the fallback classifier in terms of keyword-occurrence
counts. -/
lemma fallback_sentiment_eq (text : String) :
    fallback_sentiment text =
      (let n := negative_keywords.countP (fun kw => strContains (pyLower text) kw)
       let p := positive_keywords.countP (fun kw => strContains (pyLower text) kw)
       if p < n then
         ⟨"negative", min (60 + n * 10) 95, "Keyword-based analysis (fallback mode)"⟩
       else if n < p then
         ⟨"positive", min (60 + p * 10) 95, "Keyword-based analysis (fallback mode)"⟩
       else
         ⟨"neutral", 50, "Keyword-based analysis (fallback mode)"⟩) := by
  unfold fallback_sentiment
  simp only [sum_indicator_eq_countP]

/-! ### Claims about the sentiment classifier -/

/-- C4: with AI disabled, `classify(text)` is the deterministic keyword
fallback: with `n` the count of negative keywords and `p` the count of
positive keywords occurring in the case-folded text, it returns sentiment
negative with confidence `min (60 + 10 n) 95` when `n > p`, positive with
confidence `min (60 + 10 p) 95` when `p > n`, and neutral with confidence 50
when `n = p`, with the fallback-mode reason string; two calls on identical
text (in any AI-disabled environment) yield the identical result. -/
theorem fallback_classification_formula (ai : AIEnv) (text : String)
    (hdisabled : ai.ai_enabled = false) :
    let n := negative_keywords.countP (fun kw => strContains (pyLower text) kw)
    let p := positive_keywords.countP (fun kw => strContains (pyLower text) kw)
    let r := analyze_sentiment_ai ai text
    (p < n →
      r = ⟨"negative", min (60 + n * 10) 95, "Keyword-based analysis (fallback mode)"⟩) ∧
    (n < p →
      r = ⟨"positive", min (60 + p * 10) 95, "Keyword-based analysis (fallback mode)"⟩) ∧
    (n = p → r = ⟨"neutral", 50, "Keyword-based analysis (fallback mode)"⟩) ∧
    (∀ ai₂ : AIEnv, ai₂.ai_enabled = false →
      analyze_sentiment_ai ai₂ text = r) := by
  intro n p r
  have hr : r = fallback_sentiment text := by
    simp [r, analyze_sentiment_ai, hdisabled]
  refine ⟨fun hnp => ?_, fun hpn => ?_, fun heq => ?_, fun ai₂ h₂ => ?_⟩
  · rw [hr, fallback_sentiment_eq]
    simp only [if_pos hnp]
  · rw [hr, fallback_sentiment_eq]
    rw [if_neg (by omega), if_pos hpn]
  · rw [hr, fallback_sentiment_eq]
    rw [if_neg (by omega), if_neg (by omega)]
  · rw [hr]
    simp [analyze_sentiment_ai, h₂]

/-- Witness for C4 at a concrete input: the text "broken item, complaint
filed" contains the negative keywords "broken" and "complaint" and no
positive keyword, so `n = 2 > p = 0` and the confidence is
`min (60 + 20) 95 = 80`. -/
theorem fallback_classification_formula_witness :
    fallbackAIEnv.ai_enabled = false ∧
    (0 : Nat) <
      negative_keywords.countP
        (fun kw => strContains (pyLower "broken item, complaint filed") kw) ∧
    analyze_sentiment_ai fallbackAIEnv "broken item, complaint filed" =
      ⟨"negative", 80, "Keyword-based analysis (fallback mode)"⟩ :=
  ⟨rfl, by decide,
    (fallback_classification_formula fallbackAIEnv "broken item, complaint filed"
      rfl).1 (by decide)⟩

/-- C10: for every input text, the fallback classifier's confidence lies in
the range 50 to 95; it is exactly 50 in the tie case and at least 60 (in
fact at least 70) otherwise. -/
theorem fallback_confidence_range (text : String) :
    50 ≤ (fallback_sentiment text).confidence ∧
    (fallback_sentiment text).confidence ≤ 95 ∧
    (let n := negative_keywords.countP (fun kw => strContains (pyLower text) kw)
     let p := positive_keywords.countP (fun kw => strContains (pyLower text) kw)
     (n = p → (fallback_sentiment text).confidence = 50) ∧
     (n ≠ p → 60 ≤ (fallback_sentiment text).confidence)) := by
  have hmain :
      let n := negative_keywords.countP (fun kw => strContains (pyLower text) kw)
      let p := positive_keywords.countP (fun kw => strContains (pyLower text) kw)
      let r := fallback_sentiment text
      (50 ≤ r.confidence ∧ r.confidence ≤ 95) ∧
      (n = p → r.confidence = 50) ∧
      (n ≠ p → 60 ≤ r.confidence) := ?_
  · exact ⟨hmain.1.1, hmain.1.2, hmain.2.1, hmain.2.2⟩
  intro n p r
  have hr : r = fallback_sentiment text := rfl
  rw [fallback_sentiment_eq] at hr
  simp only at hr
  by_cases h₁ : p < n
  · rw [if_pos h₁] at hr
    rw [hr]
    refine ⟨⟨?_, ?_⟩, fun he => absurd he (by omega), fun _ => ?_⟩ <;>
      simp only [Nat.min_def] <;> split_ifs <;> omega
  · by_cases h₂ : n < p
    · rw [if_neg h₁, if_pos h₂] at hr
      rw [hr]
      refine ⟨⟨?_, ?_⟩, fun he => absurd he (by omega), fun _ => ?_⟩ <;>
        simp only [Nat.min_def] <;> split_ifs <;> omega
    · rw [if_neg h₁, if_neg h₂] at hr
      rw [hr]
      exact ⟨⟨by decide, by decide⟩, fun _ => rfl, fun hne => absurd (by omega) hne⟩

/-- Witness for C10 at a concrete input: the tie case on neutral text. -/
theorem fallback_confidence_range_witness :
    (fallback_sentiment "Logged in and viewed dashboard").confidence = 50 :=
  (fallback_confidence_range "Logged in and viewed dashboard").2.2.1 (by decide)

/-- C5: the sentiment classifier and the question generator never raise to
the caller: the AI try-block's outcome is modelled as an `Except`, and both
entry points are total functions that answer every AI-disabled or failed
outcome with the deterministic fallback; every output is either the fallback
result or a successfully parsed AI response. -/
theorem ai_failures_fall_back (env : AIEnv) (text : String)
    (lp : Option String) (survey_type : String) (k : Nat) :
    ((env.ai_enabled = false →
        analyze_sentiment_ai env text = fallback_sentiment text) ∧
     (∀ e, ai_try_sentiment env = .error e →
        analyze_sentiment_ai env text = fallback_sentiment text) ∧
     (analyze_sentiment_ai env text = fallback_sentiment text ∨
        ai_try_sentiment env = .ok (analyze_sentiment_ai env text))) ∧
    ((env.ai_enabled = false →
        generate_survey_questions_ai env lp survey_type k =
          fallback_questions env.perm survey_type lp k) ∧
     (∀ e, ai_try_questions env = .error e →
        generate_survey_questions_ai env lp survey_type k =
          fallback_questions env.perm survey_type lp k) ∧
     (generate_survey_questions_ai env lp survey_type k =
        fallback_questions env.perm survey_type lp k ∨
        ai_try_questions env = .ok (generate_survey_questions_ai env lp survey_type k))) := by
  constructor
  · refine ⟨fun hdis => ?_, fun e herr => ?_, ?_⟩
    · simp [analyze_sentiment_ai, hdis]
    · unfold analyze_sentiment_ai
      rw [herr]
      split <;> rfl
    · unfold analyze_sentiment_ai
      split
      · exact Or.inl rfl
      · match h : ai_try_sentiment env with
        | .ok r => exact Or.inr rfl
        | .error e => exact Or.inl rfl
  · refine ⟨fun hdis => ?_, fun e herr => ?_, ?_⟩
    · simp [generate_survey_questions_ai, hdis]
    · unfold generate_survey_questions_ai
      rw [herr]
      split <;> rfl
    · unfold generate_survey_questions_ai
      split
      · exact Or.inl rfl
      · match h : ai_try_questions env with
        | .ok r => exact Or.inr rfl
        | .error e => exact Or.inl rfl

/-- Witness for C5 at a concrete input: in an environment whose AI calls
raise, both entry points return the fallback results. -/
theorem ai_failures_fall_back_witness :
    ai_try_sentiment fallbackAIEnv = .error "AI disabled" ∧
    analyze_sentiment_ai fallbackAIEnv "hello" = fallback_sentiment "hello" ∧
    generate_survey_questions_ai fallbackAIEnv none "General Feedback" 3 =
      fallback_questions fallbackAIEnv.perm "General Feedback" none 3 :=
  ⟨rfl,
   (ai_failures_fall_back fallbackAIEnv "hello" none "General Feedback" 3).1.2.1
     "AI disabled" rfl,
   (ai_failures_fall_back fallbackAIEnv "hello" none "General Feedback" 3).2.2.1
     "AI disabled" rfl⟩



/-! ### Claims about the question generator -/

/-- The first twelve characters of a string: enough to tell apart every pair
of questions within one template pool, independently of the substituted
`last_purchase` (both templated questions have fixed prefixes longer than
twelve characters). -/
def key12 (s : String) : List Char := s.data.take 12

/-- Twelve-character keys ignore everything after a long fixed prefix. -/
lemma key12_append (pre mid suf : String) (h : 12 ≤ pre.data.length) :
    key12 (pre ++ mid ++ suf) = key12 pre := by
  unfold key12
  rw [String.data_append, String.data_append, List.append_assoc,
    List.take_append_of_le_length h]

/-- Every template pool is duplicate-free, for every substituted purchase
name. -/
lemma questions_map_nodup (last_purchase survey_type : String) :
    (questions_map last_purchase survey_type).Nodup := by
  unfold questions_map
  split_ifs
  · apply List.Nodup.of_map key12
    have e₁ : key12 ("How satisfied are you with your " ++ last_purchase ++ "?") =
        key12 "How satisfied are you with your " :=
      key12_append _ _ _ (by decide)
    have e₂ : key12 ("What aspects of your " ++ last_purchase ++
        " exceeded expectations?") = key12 "What aspects of your " :=
      key12_append _ _ _ (by decide)
    simp only [List.map_cons, List.map_nil, e₁, e₂]
    decide
  · decide
  · decide
  · decide
  · decide

/-- Every template pool has five or six questions. -/
lemma questions_map_length (last_purchase survey_type : String) :
    5 ≤ (questions_map last_purchase survey_type).length ∧
      (questions_map last_purchase survey_type).length ≤ 6 := by
  unfold questions_map
  split_ifs <;> simp

/-- In both branches the fallback generator takes a prefix of a permuted
pool. -/
lemma fallback_questions_eq_take (perm : List String → List String)
    (survey_type : String) (lp : Option String) (count : Nat) :
    fallback_questions perm survey_type lp count =
      (perm (questions_map (lp.getD "product") survey_type)).take count := by
  unfold fallback_questions
  simp only []
  split <;> rfl

/-- C6: in fallback mode, `generate(context, surveyType, count)` returns
exactly `count` distinct questions drawn without replacement from the
survey type's template pool when `count` is smaller than the pool (pools
sized 5 to 6); when `count` is at least the pool size it returns the whole
shuffled pool (its length is the pool size, not padded to `count`); an
unknown survey type uses the generic pool. -/
theorem fallback_questions_spec (perm : List String → List String)
    (hperm : ∀ l : List String, (perm l).Perm l)
    (survey_type : String) (lp : Option String) (count : Nat) :
    fallback_questions perm survey_type lp count =
      (perm (questions_map (lp.getD "product") survey_type)).take count ∧
    (let pool := questions_map (lp.getD "product") survey_type
     let r := fallback_questions perm survey_type lp count
     (5 ≤ pool.length ∧ pool.length ≤ 6) ∧
     (count < pool.length →
       r.length = count ∧ r.Nodup ∧ ∀ q ∈ r, q ∈ pool) ∧
     (pool.length ≤ count → r = perm pool ∧ r.length = pool.length) ∧
     (survey_type ≠ "Product Experience" → survey_type ≠ "Support Quality" →
      survey_type ≠ "General Feedback" → survey_type ≠ "Engagement Check" →
       pool = ["How satisfied are you overall?",
               "What can we improve?",
               "Any additional feedback?",
               "Is there anything preventing you from being fully satisfied?",
               "How likely are you to continue using our service?"])) := by
  refine ⟨fallback_questions_eq_take .., ?_⟩
  intro pool r
  have hr : r = (perm pool).take count := fallback_questions_eq_take ..
  have hlen : (perm pool).length = pool.length := (hperm pool).length_eq
  refine ⟨questions_map_length _ _, fun hlt => ⟨?_, ?_, ?_⟩, fun hge => ⟨?_, ?_⟩,
    fun h₁ h₂ h₃ h₄ => ?_⟩
  · rw [hr, List.length_take, hlen]
    omega
  · rw [hr]
    exact ((hperm pool).nodup_iff.mpr (questions_map_nodup _ _)).sublist
      (List.take_sublist _ _)
  · intro q hq
    rw [hr] at hq
    exact (hperm pool).mem_iff.mp (List.take_subset _ _ hq)
  · rw [hr]
    exact List.take_of_length_le (by omega)
  · rw [hr, List.length_take]
    omega
  · show questions_map (lp.getD "product") survey_type = _
    unfold questions_map
    rw [if_neg h₁, if_neg h₂, if_neg h₃, if_neg h₄]

/-- Witness for C6 at a concrete input: the identity permutation, an unknown
survey type, and a request for three of the five generic questions. -/
theorem fallback_questions_spec_witness :
    (∀ l : List String, (id l).Perm l) ∧
    (3 : Nat) < (questions_map ((none : Option String).getD "product") "Mystery").length ∧
    (fallback_questions id "Mystery" none 3).length = 3 ∧
    (fallback_questions id "Mystery" none 3).Nodup :=
  ⟨fun _ => List.Perm.refl _, by decide,
    ((fallback_questions_spec id (fun _ => List.Perm.refl _) "Mystery" none 3).2.2.1
      (by decide)).1,
    ((fallback_questions_spec id (fun _ => List.Perm.refl _) "Mystery" none 3).2.2.1
      (by decide)).2.1⟩

/-! ### Claims about the cooldown gate -/

/-- C3: the cooldown gate returns true whenever `last_survey_date` is absent
or empty; true whenever the date does not parse (fail-open); and otherwise
true exactly when the number of whole days elapsed since the date is at
least the configured minimum, whose default is 30.  When the gate returns
false, the engine's decision has `survey_trigger` false with reason
"Survey sent too recently". -/
theorem cooldown_gate_correct (parse_date : String → Option Int)
    (min_days : Int) (env : AgentEnv) (req : AnalysisRequest)
    (ltm : Option FileSystem) :
    (should_send_survey parse_date min_days none = true) ∧
    (should_send_survey parse_date min_days (some "") = true) ∧
    (∀ s, parse_date s = none →
      should_send_survey parse_date min_days (some s) = true) ∧
    (∀ s d, s ≠ "" → parse_date s = some d →
      (should_send_survey parse_date min_days (some s) = true ↔ min_days ≤ d)) ∧
    (MIN_DAYS_BETWEEN_SURVEYS none = 30) ∧
    (should_send_survey env.parse_date env.min_days req.last_survey_date = false →
      (analyze_request env req ltm).1.survey_trigger = false ∧
      (analyze_request env req ltm).1.reason = "Survey sent too recently") := by
  refine ⟨rfl, ?_, fun s hs => ?_, fun s d hs hd => ?_, rfl, fun hgate => ?_⟩
  · simp [should_send_survey]
  · simp only [should_send_survey]
    split_ifs with h
    · rfl
    · rw [hs]
  · simp only [should_send_survey]
    rw [if_neg hs, hd]
    simp
  · unfold analyze_request
    rw [if_pos hgate]
    exact ⟨rfl, rfl⟩

/-- Witness for C3 at concrete inputs: an unparseable date passes the gate,
a 29-day-old date fails a 30-day gate, and the failing gate produces the
cooldown refusal. -/
theorem cooldown_gate_correct_witness :
    should_send_survey (fun _ => none) 30 (some "not-a-date") = true ∧
    (("2026-10-10" : String) ≠ "" ∧
      should_send_survey (fun _ => some 29) 30 (some "2026-10-10") ≠ true) ∧
    (should_send_survey fallbackAgentEnv.parse_date fallbackAgentEnv.min_days
        (some "") = true) ∧
    ((analyze_request
        { fallbackAgentEnv with parse_date := fun _ => some 2, min_days := 30 }
        { user_id := "user123", recent_activity := "Browsing products",
          last_purchase := "Phone Case",
          last_survey_date := some "2026-10-11" } none).1.reason =
      "Survey sent too recently") := by
  refine ⟨(cooldown_gate_correct (fun _ => none) 30 fallbackAgentEnv
      { user_id := "", recent_activity := "", last_purchase := "",
        last_survey_date := none } none).2.2.1 "not-a-date" rfl,
    ⟨by decide, ?_⟩, rfl, ?_⟩
  · have h := (cooldown_gate_correct (fun _ => some 29) 30 fallbackAgentEnv
      { user_id := "", recent_activity := "", last_purchase := "",
        last_survey_date := none } none).2.2.2.1 "2026-10-10" 29 (by decide) rfl
    intro hc
    have := h.mp hc
    omega
  · exact ((cooldown_gate_correct (fun _ => some 2) 30
      { fallbackAgentEnv with parse_date := fun _ => some 2, min_days := 30 }
      { user_id := "user123", recent_activity := "Browsing products",
        last_purchase := "Phone Case", last_survey_date := some "2026-10-11" }
      none).2.2.2.2.2 (by decide)).2

/-! ### Claims about the memory store -/

/-- Reading straight after writing a key returns the stored value. -/
lemma read_write_self (fs : FileSystem) (now k : String) (v : Json) :
    LTMFileStorage.read (LTMFileStorage.write fs now k v).2 k = v := by
  simp [LTMFileStorage.read, LTMFileStorage.write, alistLookup, jsonTruthy, jsonGet]

/-- Filtering out one path leaves lookups of other paths unchanged. -/
lemma alistLookup_filter_ne (fs : FileSystem) (p q : String) (h : q ≠ p) :
    alistLookup (fs.filter (fun e => e.1 != p)) q = alistLookup fs q := by
  induction fs with
  | nil => rfl
  | cons e rest ih =>
    by_cases he : e.1 = p
    · rw [show (e :: rest).filter (fun e => e.1 != p) =
          rest.filter (fun e => e.1 != p) by simp [List.filter_cons, he], ih]
      have : ¬e.1 = q := fun hq => h (hq ▸ he ▸ rfl)
      simp [alistLookup, this]
    · rw [show (e :: rest).filter (fun e => e.1 != p) =
          e :: rest.filter (fun e => e.1 != p) by simp [List.filter_cons, he]]
      obtain ⟨p₁, j₁⟩ := e
      simp only [alistLookup]
      split <;> simp_all

/-- Appending the same suffix to different strings keeps them different
(file paths of distinct keys are distinct). -/
lemma path_ne_of_key_ne (k k' suf : String) (h : k' ≠ k) :
    k' ++ suf ≠ k ++ suf := by
  intro hc
  apply h
  have hd := congrArg String.data hc
  rw [String.data_append, String.data_append] at hd
  exact String.ext (List.append_cancel_right hd)

/-- Writing one key leaves reads of every other key unchanged. -/
lemma read_write_other (fs : FileSystem) (now k k' : String) (v : Json)
    (h : k' ≠ k) :
    LTMFileStorage.read (LTMFileStorage.write fs now k v).2 k' =
      LTMFileStorage.read fs k' := by
  unfold LTMFileStorage.read LTMFileStorage.write
  have hpath : k' ++ ".json" ≠ k ++ ".json" := path_ne_of_key_ne _ _ _ h
  simp only [alistLookup, if_neg (Ne.symm hpath)]
  rw [alistLookup_filter_ne _ _ _ hpath]

/-- C7: writing a key and reading it back returns the stored value unchanged
(deep equality of the JSON value), both on an empty store and after any
earlier writes; a key never written reads as absent (Python `None`), never as
an error; and writes to other keys do not disturb it. -/
theorem memory_store_roundtrip (fs : FileSystem) (now k k' key : String)
    (v : Json) (_hsuccess : (LTMFileStorage.write fs now k v).1 = true)
    (hne : k' ≠ k) :
    (LTMFileStorage.read (LTMFileStorage.write fs now k v).2 k = v) ∧
    (LTMFileStorage.read ([] : FileSystem) key = Json.null) ∧
    (LTMFileStorage.read (LTMFileStorage.write fs now k v).2 k' =
      LTMFileStorage.read fs k') := by
  exact ⟨read_write_self fs now k v, rfl, read_write_other fs now k k' v hne⟩

/-- Witness for C7 at concrete inputs: write then read on the empty store. -/
theorem memory_store_roundtrip_witness :
    (LTMFileStorage.write [] "2026-10-12" "alpha" (Json.str "payload")).1 = true ∧
    ("beta" : String) ≠ "alpha" ∧
    LTMFileStorage.read
      (LTMFileStorage.write [] "2026-10-12" "alpha" (Json.str "payload")).2
      "alpha" = Json.str "payload" :=
  ⟨rfl, by decide,
    (memory_store_roundtrip [] "2026-10-12" "alpha" "beta" "missing"
      (Json.str "payload") rfl (by decide)).1⟩

/-- C8: with the storage backend disabled (`self.ltm is None`), every
`write_to_ltm` returns `False`, every `read_from_ltm` returns `None`, both
are total (the model has no failing path), and `analyze_request` produces
the same decision whatever the storage state is. -/
theorem storage_disabled_safe (env : AgentEnv) (req : AnalysisRequest)
    (now k : String) (v : Json) (ltm₁ ltm₂ : Option FileSystem) :
    (write_to_ltm none now k v = (false, none)) ∧
    (read_from_ltm none k = Json.null) ∧
    ((analyze_request env req ltm₁).1 = (analyze_request env req ltm₂).1) ∧
    ((analyze_request env req none).2 = none) := by
  refine ⟨rfl, rfl, ?_, ?_⟩
  · unfold analyze_request
    split <;> rfl
  · unfold analyze_request
    split
    · rfl
    · rfl

/-! ### Claims about the decision cycle -/

/-- A run that starts with storage available keeps storage available. -/
lemma analyze_request_preserves_some (env : AgentEnv) (req : AnalysisRequest)
    (fs : FileSystem) :
    ∃ fs₁, (analyze_request env req (some fs)).2 = some fs₁ := by
  unfold analyze_request
  split
  · exact ⟨fs, rfl⟩
  · exact ⟨_, rfl⟩

/-- C9: for every decision cycle on a request with a non-empty `user_id`
(with storage available), after the decision is produced a record
`{"timestamp": now, "result": decision}` is stored under
`last_analysis_{user_id}` and can be read back from the resulting store. -/
theorem process_task_persists_decision (env : AgentEnv) (task : AnalysisRequest)
    (fs : FileSystem) (h : task.user_id ≠ "") :
    ∃ fs', (process_task env task (some fs)).2 = some fs' ∧
      LTMFileStorage.read fs' ("last_analysis_" ++ task.user_id) =
        Json.obj [("timestamp", Json.str env.now),
                  ("result", (process_task env task (some fs)).1.toJson)] := by
  have hb : (task.user_id != "") = true := bne_iff_ne.mpr h
  obtain ⟨fs₁, hfs₁⟩ := analyze_request_preserves_some env task fs
  unfold process_task
  simp only [hb, if_true, hfs₁, write_to_ltm]
  exact ⟨_, rfl, read_write_self ..⟩

/-- Witness for C9 at a concrete input: the fallback environment, a neutral
request for user "user123", and the empty file store. -/
theorem process_task_persists_decision_witness :
    ("user123" : String) ≠ "" ∧
    ∃ fs', (process_task fallbackAgentEnv
        { user_id := "user123", recent_activity := "Logged in and viewed dashboard",
          last_purchase := "", last_survey_date := none } (some [])).2 = some fs' ∧
      LTMFileStorage.read fs' ("last_analysis_" ++ "user123") =
        Json.obj [("timestamp", Json.str fallbackAgentEnv.now),
                  ("result", (process_task fallbackAgentEnv
                    { user_id := "user123",
                      recent_activity := "Logged in and viewed dashboard",
                      last_purchase := "", last_survey_date := none }
                    (some [])).1.toJson)] :=
  ⟨by decide,
    process_task_persists_decision fallbackAgentEnv
      { user_id := "user123", recent_activity := "Logged in and viewed dashboard",
        last_purchase := "", last_survey_date := none } [] (by decide)⟩

/-- Under a passing cooldown gate the engine's decision is the rule table
applied to the classified sentiment. -/
lemma analyze_request_pass (env : AgentEnv) (req : AnalysisRequest)
    (ltm : Option FileSystem)
    (hgate : should_send_survey env.parse_date env.min_days req.last_survey_date
      = true) :
    (analyze_request env req ltm).1 =
      make_decision env.ai env.now
        (analyze_sentiment_ai env.ai req.recent_activity).sentiment
        (analyze_sentiment_ai env.ai req.recent_activity).confidence
        req.recent_activity (req.last_purchase != "") req.last_purchase := by
  unfold analyze_request
  rw [if_neg (by simp [hgate])]
  rfl

/-- Scenario A of the specification: negative support chat after a purchase,
no prior survey. -/
def scenarioA_request : AnalysisRequest :=
  { user_id := "user123"
    recent_activity := "Support chat with negative sentiment"
    last_purchase := "Wireless Earbuds"
    last_survey_date := none }

/-- C1: for every request that passes the cooldown gate and classifies as
negative, the rules fire in priority order with the first match winning:
a non-empty `last_purchase` gives a "Product Experience"/"high" survey (even
when "support" also appears in the activity, since only `last_purchase` is
tested); otherwise "support" occurring case-insensitively in the activity
gives "Support Quality"/"high"; otherwise "Engagement Check"/"medium".  A
positive or neutral classification gives no survey, with the exact
"No survey needed" reason string. -/
theorem decision_rules_correct (env : AgentEnv) (req : AnalysisRequest)
    (ltm : Option FileSystem)
    (hgate : should_send_survey env.parse_date env.min_days req.last_survey_date
      = true) :
    let s := analyze_sentiment_ai env.ai req.recent_activity
    let r := (analyze_request env req ltm).1
    (s.sentiment = "negative" →
      (req.last_purchase ≠ "" →
        r.survey_trigger = true ∧ r.survey_type = some "Product Experience" ∧
          r.priority = some "high") ∧
      (req.last_purchase = "" →
       strContains (pyLower req.recent_activity) "support" = true →
        r.survey_trigger = true ∧ r.survey_type = some "Support Quality" ∧
          r.priority = some "high") ∧
      (req.last_purchase = "" →
       strContains (pyLower req.recent_activity) "support" = false →
        r.survey_trigger = true ∧ r.survey_type = some "Engagement Check" ∧
          r.priority = some "medium")) ∧
    (s.sentiment = "positive" ∨ s.sentiment = "neutral" →
      r.survey_trigger = false ∧
      r.reason = "No survey needed for " ++ s.sentiment ++
        " sentiment (AI confidence: " ++ toString s.confidence ++ "%)") := by
  intro s r
  have hr : r = make_decision env.ai env.now s.sentiment s.confidence
      req.recent_activity (req.last_purchase != "") req.last_purchase :=
    analyze_request_pass env req ltm hgate
  rw [hr]
  unfold make_decision
  constructor
  · intro hneg
    refine ⟨fun hp => ?_, fun hnp hsup => ?_, fun hnp hsup => ?_⟩
    · rw [if_pos ⟨hneg, bne_iff_ne.mpr hp⟩]
      exact ⟨rfl, rfl, rfl⟩
    · have hb : (req.last_purchase != "") = false := by simp [hnp]
      rw [if_neg (fun hc => by rw [hb] at hc; exact absurd hc.2 (by decide)),
        if_pos ⟨hneg, hsup⟩]
      exact ⟨rfl, rfl, rfl⟩
    · have hb : (req.last_purchase != "") = false := by simp [hnp]
      rw [if_neg (fun hc => by rw [hb] at hc; exact absurd hc.2 (by decide)),
        if_neg (fun hc => by rw [hsup] at hc; exact absurd hc.2 (by decide)),
        if_pos hneg]
      exact ⟨rfl, rfl, rfl⟩
  · intro hpn
    have hne : ¬s.sentiment = "negative" := by
      rcases hpn with hp | hn
      · rw [hp]; decide
      · rw [hn]; decide
    rw [if_neg (fun hc => hne hc.1), if_neg (fun hc => hne hc.1), if_neg hne]
    exact ⟨rfl, rfl⟩

/-- Witness for C1 at Scenario A: the gate passes (no prior survey), the
fallback classifies the activity as negative, the purchase is non-empty, and
the decision is a high-priority "Product Experience" survey even though
"support" appears in the activity. -/
theorem decision_rules_correct_witness :
    (should_send_survey fallbackAgentEnv.parse_date fallbackAgentEnv.min_days
      scenarioA_request.last_survey_date = true) ∧
    ((analyze_sentiment_ai fallbackAgentEnv.ai
        scenarioA_request.recent_activity).sentiment = "negative") ∧
    (strContains (pyLower scenarioA_request.recent_activity) "support" = true) ∧
    ((analyze_request fallbackAgentEnv scenarioA_request none).1.survey_trigger
       = true) ∧
    ((analyze_request fallbackAgentEnv scenarioA_request none).1.survey_type =
       some "Product Experience") ∧
    ((analyze_request fallbackAgentEnv scenarioA_request none).1.priority =
       some "high") := by
  have h := ((decision_rules_correct fallbackAgentEnv scenarioA_request none
    rfl).1 (by decide)).1 (by decide)
  exact ⟨rfl, by decide, by decide, h.1, h.2.1, h.2.2⟩

/-- Environment of a run where the sentiment call raises (a network error, so
classification falls back to keywords) while the question-generation call
succeeds and the model answers with the parseable but empty JSON array
`[]` — a malformed-output behaviour the AI collaborator contract allows. -/
def emptyArrayAIEnv : AIEnv :=
  { ai_enabled := true
    sentiment_response := .error "network error"
    sentiment_parse := fun _ => .error "unreachable"
    questions_response := .ok "[]"
    perm := id }

/-- Agent environment around `emptyArrayAIEnv`. -/
def emptyArrayAgentEnv : AgentEnv :=
  { ai := emptyArrayAIEnv
    parse_date := fun _ => none
    min_days := 30
    hash_fn := fun _ => 0
    now := "2026-10-12T00:00:00" }

/-- Environment of an AI-enabled run whose question-generation call raises
(a network error), sending question generation down the deterministic
fallback path; the sentiment call raises too, so classification also falls
back. -/
def questionErrorAIEnv : AIEnv :=
  { ai_enabled := true
    sentiment_response := .error "network error"
    sentiment_parse := fun _ => .error "unreachable"
    questions_response := .error "network error"
    perm := id }

/-- Agent environment around `questionErrorAIEnv`. -/
def questionErrorAgentEnv : AgentEnv :=
  { ai := questionErrorAIEnv
    parse_date := fun _ => none
    min_days := 30
    hash_fn := fun _ => 0
    now := "2026-10-12T00:00:00" }

/-- C2 counterexample: a decision returned by the engine whose
`survey_trigger` is true while `questions` is empty, so "questions is
non-empty iff survey_trigger is true" fails on the code.  The AI question
call succeeds with the response text `[]`, which `json.loads` parses to an
empty list; the engine attaches it unvalidated. -/
theorem questions_invariant_counterexample :
    (analyze_request emptyArrayAgentEnv
      { user_id := "user123",
        recent_activity := "Customer complaint: item arrived broken",
        last_purchase := "Wireless Earbuds",
        last_survey_date := none } none).1.survey_trigger = true ∧
    (analyze_request emptyArrayAgentEnv
      { user_id := "user123",
        recent_activity := "Customer complaint: item arrived broken",
        last_purchase := "Wireless Earbuds",
        last_survey_date := none } none).1.questions = some [] :=
  ⟨rfl, rfl⟩

/-- Shape of every response dictionary `_create_response` builds: the
conditional keys are present exactly when the survey triggered. -/
lemma create_response_shape (now : String) (t : Bool) (st pr re : String)
    (qs : Option (List String)) :
    ((create_response now t st pr re qs).survey_type.isSome = t) ∧
    ((create_response now t st pr re qs).priority.isSome = t) ∧
    ((create_response now t st pr re qs).questions.isSome = t) ∧
    ((create_response now t st pr re qs).survey_trigger = t) := by
  cases t <;> simp [create_response]

/-- The fallback generator never returns an empty list for three requested
questions: every pool has at least five. -/
lemma fallback_questions_three_ne_nil (perm : List String → List String)
    (hperm : ∀ l : List String, (perm l).Perm l)
    (survey_type : String) (lp : Option String) :
    fallback_questions perm survey_type lp 3 ≠ [] := by
  rw [fallback_questions_eq_take]
  intro hc
  have hlen := congrArg List.length hc
  rw [List.length_take, (hperm _).length_eq] at hlen
  have hp := (questions_map_length (lp.getD "product") survey_type).1
  simp only [List.length_nil] at hlen
  omega

/-- C2 (amended): `survey_type`, `priority` and `questions` are present in
the response exactly when `survey_trigger` is true, and absent (so `questions`
empty) when it is false; `questions` is moreover non-empty whenever the
question generator took its deterministic fallback path — that is, whenever
AI is disabled or the question-generation call failed.  (With AI enabled, a
successfully parsed response that is an empty array is attached as-is, so
`questions` can be empty with `survey_trigger` true.) -/
theorem response_shape_invariant (env : AgentEnv) (req : AnalysisRequest)
    (ltm : Option FileSystem)
    (hperm : ∀ l : List String, (env.ai.perm l).Perm l) :
    let r := (analyze_request env req ltm).1
    (r.survey_type.isSome = r.survey_trigger) ∧
    (r.priority.isSome = r.survey_trigger) ∧
    (r.questions.isSome = r.survey_trigger) ∧
    (r.survey_trigger = false → r.questions = none) ∧
    ((env.ai.ai_enabled = false ∨ ∃ e, ai_try_questions env.ai = .error e) →
      r.survey_trigger = true →
      ∃ qs, r.questions = some qs ∧ qs ≠ []) := by
  intro r
  by_cases hgate : should_send_survey env.parse_date env.min_days
      req.last_survey_date = true
  · have hr : r = make_decision env.ai env.now
        (analyze_sentiment_ai env.ai req.recent_activity).sentiment
        (analyze_sentiment_ai env.ai req.recent_activity).confidence
        req.recent_activity (req.last_purchase != "") req.last_purchase :=
      analyze_request_pass env req ltm hgate
    rw [hr]
    unfold make_decision
    split_ifs with h₁ h₂ h₃ <;>
      [skip; skip; skip;
       exact ⟨rfl, rfl, rfl, fun _ => rfl, fun _ ht => Bool.noConfusion ht⟩] <;>
    · refine ⟨rfl, rfl, rfl, fun hf => Bool.noConfusion hf,
        fun hfb _ => ⟨_, rfl, ?_⟩⟩
      rw [Option.getD_some]
      unfold generate_survey_questions_ai
      rcases hfb with hai | ⟨e, herr⟩
      · rw [if_pos hai]
        exact fallback_questions_three_ne_nil env.ai.perm hperm _ _
      · split
        · exact fallback_questions_three_ne_nil env.ai.perm hperm _ _
        · rw [herr]
          exact fallback_questions_three_ne_nil env.ai.perm hperm _ _
  · have hgate' : should_send_survey env.parse_date env.min_days
        req.last_survey_date = false := by
      cases hs : should_send_survey env.parse_date env.min_days
          req.last_survey_date
      · rfl
      · exact absurd hs hgate
    have hr : r = create_response env.now false "" "low"
        "Survey sent too recently" none := by
      show (analyze_request env req ltm).1 = _
      unfold analyze_request
      rw [if_pos hgate']
    rw [hr]
    exact ⟨rfl, rfl, rfl, fun _ => rfl, fun _ ht => Bool.noConfusion ht⟩

/-- Witness for C2 (amended) at Scenario A, exercising both fallback-path
cases: with AI disabled the survey triggers with non-empty questions, and
likewise in an AI-enabled run whose question-generation call raises. -/
theorem response_shape_invariant_witness :
    (∀ l : List String, (fallbackAgentEnv.ai.perm l).Perm l) ∧
    ((analyze_request fallbackAgentEnv scenarioA_request none).1.survey_trigger
      = true) ∧
    (∃ qs, (analyze_request fallbackAgentEnv scenarioA_request none).1.questions
        = some qs ∧ qs ≠ []) ∧
    (∃ e, ai_try_questions questionErrorAgentEnv.ai = .error e) ∧
    ((analyze_request questionErrorAgentEnv scenarioA_request none).1.survey_trigger
      = true) ∧
    ∃ qs, (analyze_request questionErrorAgentEnv scenarioA_request none).1.questions
        = some qs ∧ qs ≠ [] :=
  ⟨fun _ => List.Perm.refl _, rfl,
    (response_shape_invariant fallbackAgentEnv scenarioA_request none
      (fun _ => List.Perm.refl _)).2.2.2.2 (Or.inl rfl) rfl,
    ⟨"network error", rfl⟩, rfl,
    (response_shape_invariant questionErrorAgentEnv scenarioA_request none
      (fun _ => List.Perm.refl _)).2.2.2.2
      (Or.inr ⟨"network error", rfl⟩) rfl⟩
